import Mathlib

/-!
Verification of the asynchronous job orchestration layer and session pipeline
of the presales report server.

The definitions below are a shallow embedding of the Python sources:

* `src/api/job_storage.py`  — `Job`, `JobStatus`, the in-memory and Redis backends;
* `src/api/main.py`         — the background job handlers `job_generate` / `job_refine`
  and the submission endpoints;
* `src/core/state.py`       — `SessionState`, `FileRef`, `SectionRef`;
* `src/core/nodes/transcript_loader_node.py` — the transcript-loading stage;
* `src/core/nodes/context_extractor_node.py` — `_normalize`, `_dedupe_merge`
  and the fact-extraction stage;
* `src/core/generate_section.py` — `prepare_session_state`, `write_section`;
* `src/core/refine_section.py`   — `refine_section`.

Modelling conventions:

* Python dicts that are used as insertion-ordered maps become association
  lists (`List (String × α)`), with `alist_set` mirroring `d[k] = v`
  (replace-in-place, else append) and `alist_lookup` mirroring `d.get(k)`.
* Machine timestamps (`time.time()`) are passed in explicitly as `Nat` values.
* The language-generation provider (`generate_text` / `generate_json` from
  `src/core/tools/llm_client.py`) is an external collaborator per the spec and
  is passed in as a function argument; the exact prompt wording is out of the
  spec's scope, so prompts are modelled as injective compositions of their
  semantic inputs.
* Base64 transport encoding of section text is elided (it is an injective
  encoding irrelevant to every claim); job results carry the section text.
* Filesystem and checkpoint stores are an explicit `World` value threaded
  through the stateful operations; Python exceptions become `Except String`.
-/

/-! ## String helpers

Python's `str.strip` / `str.lower` / `re.sub(r"\s+", " ", ·)` on the ASCII
fragment (every value appearing in the claims is ASCII), implemented at
character level so that concrete instances evaluate inside the kernel. -/

/-- The whitespace class of Python's `str.strip` and `\s` (ASCII fragment). -/
def pyWhitespace (c : Char) : Bool :=
  c = ' ' || c = '\t' || c = '\n' || c = '\r' || c = '\x0b' || c = '\x0c'

/-- ASCII lower-casing of one character, as `str.lower` does on ASCII. -/
def pyLowerChar (c : Char) : Char :=
  if 'A' ≤ c ∧ c ≤ 'Z' then Char.ofNat (c.toNat + 32) else c

/-- `s.lower()` on ASCII. -/
def strLower (s : String) : String := String.mk (s.data.map pyLowerChar)

/-- `s.strip()`: drop leading and trailing whitespace. -/
def strTrim (s : String) : String :=
  String.mk (((s.data.dropWhile pyWhitespace).reverse.dropWhile pyWhitespace).reverse)

/-- Collapse every maximal run of whitespace characters into a single space,
mirroring `re.sub(r"\s+", " ", s)`. Implemented as a left fold carrying the
"previous character was whitespace" flag. -/
def collapseWs (s : String) : String :=
  String.mk (s.data.foldl
    (fun acc c =>
      if pyWhitespace c then
        (if acc.2 then acc.1 else acc.1 ++ [' '], true)
      else
        (acc.1 ++ [c], false))
    (([] : List Char), false)).1

/-! ## Fact model (context_extractor_node.py)

`FactRecord` mirrors `Fact` of `src/core/schemas/fact_schema.py` (that module
is not under `src/`; its shape is fixed by the spec's data model — type,
value, confidence LOW|MEDIUM|HIGH, evidence with source transcript key, file
name, chunk id, quoted excerpt, anchor — and by how `_dedupe_merge` accesses
the validated dicts). The Lean name differs because `Fact` is taken by
Mathlib. -/

structure Evidence where
  transcript_key : Option String
  transcript_file : Option String
  chunk_id : Option Nat
  quote : Option String
  anchor : Option String
deriving DecidableEq

/-- Evidence dict with no entries, mirroring `{}` (the default taken by
`cur.get("evidence") or {}`). -/
def emptyEvidence : Evidence :=
  { transcript_key := none, transcript_file := none, chunk_id := none
    quote := none, anchor := none }

/-- A validated fact record (`Fact.model_dump()` in the source): `type` and
`confidence` are strings from closed enumerations, `value` is short text,
`evidence` is optional. -/
structure FactRecord where
  type : String
  value : String
  confidence : String
  evidence : Option Evidence
deriving DecidableEq

/-- Python truthiness of `ev.get("quote")`: missing and the empty string are
both falsy. -/
def quoteTruthy : Option String → Bool
  | none => false
  | some s => if s = "" then false else true

/-- `_normalize` (context_extractor_node.py lines 34-37): strip, lower-case,
collapse internal whitespace. -/
def _normalize (s : String) : String :=
  collapseWs (strLower (strTrim s))

/-- The confidence ranking `{"LOW": 0, "MEDIUM": 1, "HIGH": 2}` read with
`rank.get(confidence, 0)` — unknown labels rank as 0. -/
def rank (c : String) : Nat :=
  if c = "HIGH" then 2 else if c = "MEDIUM" then 1 else 0

/-- Merge key of a fact: `(type, normalized value)`
(context_extractor_node.py line 53). -/
abbrev Key := String × String

def factKey (f : FactRecord) : Key := (f.type, _normalize f.value)

/-- The dedup index: a Python dict keyed by `Key`, i.e. an insertion-ordered
association list with unique keys. -/
abbrev Index := List (Key × FactRecord)

def lookupKey : Index → Key → Option FactRecord
  | [], _ => none
  | e :: rest, k => if e.1 = k then some e.2 else lookupKey rest k

/-- `index[key] = item` when `key` is already present: replace the fact stored
at the first (unique) occurrence of the key, keeping its position, exactly as
Python dict assignment does. -/
def replaceKey : Index → Key → FactRecord → Index
  | [], _, _ => []
  | e :: rest, k, f => if e.1 = k then (k, f) :: rest else e :: replaceKey rest k f

/-- One `upsert(item)` step of `_dedupe_merge` (context_extractor_node.py
lines 52-70):

* facts whose normalized value is empty are discarded;
* a fresh key is inserted at the end of the dict;
* a strictly higher-confidence duplicate replaces the stored fact entirely;
* otherwise the stored fact is kept, backfilling a missing evidence quote
  from the new fact (and `cur["evidence"] = cur_ev` materialises the evidence
  dict even when nothing is backfilled). -/
def backfillEvidence (cur item : FactRecord) : Evidence :=
  let cur_ev := cur.evidence.getD emptyEvidence
  let new_ev := item.evidence.getD emptyEvidence
  if quoteTruthy cur_ev.quote = false ∧ quoteTruthy new_ev.quote = true then
    { cur_ev with quote := new_ev.quote }
  else cur_ev

def upsert (index : Index) (item : FactRecord) : Index :=
  let key := factKey item
  if key.2 = "" then index
  else
    match lookupKey index key with
    | none => index ++ [(key, item)]
    | some cur =>
      if rank cur.confidence < rank item.confidence then
        replaceKey index key item
      else
        replaceKey index key { cur with evidence := some (backfillEvidence cur item) }

/-- The index built by `_dedupe_merge`: upsert every existing fact, then every
new fact, into a fresh dict. -/
def mergeIndex (existing news : List FactRecord) : Index :=
  news.foldl upsert (existing.foldl upsert [])

/-- `_dedupe_merge(existing, new)` (context_extractor_node.py lines 40-77):
returns `list(index.values())`. -/
def _dedupe_merge (existing news : List FactRecord) : List FactRecord :=
  (mergeIndex existing news).map (fun e => e.2)

example : _normalize "  Budget  " = "budget" := by decide
example : _normalize "a  B" = "a b" := by decide

/-! ## Association-list dict helpers -/

/-- `d.get(k)` on a Python dict modelled as an insertion-ordered association
list. -/
def alist_lookup {α : Type} : List (String × α) → String → Option α
  | [], _ => none
  | e :: rest, k => if e.1 = k then some e.2 else alist_lookup rest k

/-- `d[k] = v`: replace the value at the first occurrence of `k`, else append
the new entry at the end (Python dict assignment). -/
def alist_set {α : Type} : List (String × α) → String → α → List (String × α)
  | [], k, v => [(k, v)]
  | e :: rest, k, v => if e.1 = k then (k, v) :: rest else e :: alist_set rest k v

/-! ## Job model (job_storage.py) -/

/-- `JobStatus` (job_storage.py lines 44-49). -/
inductive JobStatus
  | pending
  | processing
  | completed
  | failed
deriving DecidableEq

/-- A job result payload (main.py lines 280-285 and 383-389): the
customer/opportunity/section metadata (each may be absent, since
`metadata.get` returns `None` for a missing key) together with the section
text under the key `generated_section_b64` or `refined_section_b64`
(`payload_key`). The base64 transport encoding of the text is elided. -/
structure JobResult where
  customer_id : Option String
  opportunity_id : Option String
  section_title : Option String
  payload_key : String
  section_text : String
deriving DecidableEq

/-- A structured job error `{error_code, message}` (main.py lines 292-296). -/
structure JobError where
  error_code : String
  message : String
deriving DecidableEq

/-- `Job` (job_storage.py lines 52-95). `metadata` is the caller-supplied
parameter dict. -/
structure Job where
  job_id : String
  job_type : String
  status : JobStatus
  created_at : Nat
  updated_at : Nat
  result : Option JobResult
  error : Option JobError
  metadata : List (String × String)
deriving DecidableEq

/-- `Job.update_status` (job_storage.py lines 88-95): set the status and
`updated_at`; overwrite `result` / `error` only when a non-`None` argument is
supplied (`if result is not None: self.result = result`). -/
def Job.update_status (j : Job) (status : JobStatus) (now : Nat)
    (result : Option JobResult) (error : Option JobError) : Job :=
  { j with
    status := status
    updated_at := now
    result := match result with | some r => some r | none => j.result
    error := match error with | some e => some e | none => j.error }

/-- `create_job` (job_storage.py lines 125-135 / 186-196): a fresh job is
PENDING with no result and no error; `job_id` is the generated UUID. -/
def create_job (job_id job_type : String) (metadata : List (String × String))
    (t0 : Nat) : Job :=
  { job_id := job_id
    job_type := job_type
    status := JobStatus.pending
    created_at := t0
    updated_at := t0
    result := none
    error := none
    metadata := metadata }

/-! ## Constants (constants.py) -/

def JOB_TYPE_GENERATE : String := "generate"
def JOB_TYPE_REFINE : String := "refine"
def ERR_INTERNAL_ERROR : String := "INTERNAL_ERROR"
def RESP_DATA_KEY_GENERATED_SECTION_B64 : String := "generated_section_b64"
def RESP_DATA_KEY_REFINED_SECTION_B64 : String := "refined_section_b64"

/-! ## Job storage backends (job_storage.py)

The in-memory backend is a process-local dict; the Redis backend serialises
the record under key `"job:" + job_id` with a TTL of 24 hours refreshed on
every update. A Redis record is modelled with its absolute expiry timestamp
(`now + ttl`), the way Redis `SET ... EX` behaves. -/

def REDIS_JOB_TTL_SECONDS : Nat := 86400

/-- `InMemoryJobStorage._jobs`: a dict from job id to `Job`. -/
abbrev InMemStore := List (String × Job)

/-- `InMemoryJobStorage.get_job` (job_storage.py lines 137-139). -/
def inMemory_get_job (s : InMemStore) (job_id : String) : Option Job :=
  alist_lookup s job_id

/-- `InMemoryJobStorage.update_job` (job_storage.py lines 141-144): writes the
record only `if job.job_id in self._jobs`; an absent id is silently dropped. -/
def inMemory_update_job (s : InMemStore) (job : Job) : InMemStore :=
  if (alist_lookup s job.job_id).isSome then alist_set s job.job_id job else s

/-- `InMemoryJobStorage.delete_job` (job_storage.py lines 146-151). -/
def inMemory_delete_job (s : InMemStore) (job_id : String) : InMemStore × Bool :=
  if (alist_lookup s job_id).isSome then
    (s.filter (fun e => decide (e.1 ≠ job_id)), true)
  else (s, false)

/-- The Redis store: serialized job records with their absolute expiry time. -/
abbrev RedisStore := List (String × (Job × Nat))

/-- Redis key for a job: `f"{self.key_prefix}{job_id}"` with the default
`REDIS_KEY_PREFIX = "job:"`. -/
def redisKey (job_id : String) : String := "job:" ++ job_id

/-- `RedisJobStorage.update_job` (job_storage.py lines 219-225):
unconditionally `SET` the serialized record with `ex=REDIS_JOB_TTL_SECONDS`,
resetting the expiry countdown. -/
def redis_update_job (s : RedisStore) (job : Job) (now : Nat) : RedisStore :=
  alist_set s (redisKey job.job_id) (job, now + REDIS_JOB_TTL_SECONDS)

/-- `RedisJobStorage.get_job` (job_storage.py lines 198-217): an expired or
absent key reads as absent. (The corrupt-record branch is not modelled; every
record in the modelled store was produced by `update_job` and deserialises.) -/
def redis_get_job (s : RedisStore) (job_id : String) (now : Nat) : Option Job :=
  match alist_lookup s (redisKey job_id) with
  | none => none
  | some (job, expiry) => if now < expiry then some job else none

/-! ## The dispatcher (main.py `job_generate` / `job_refine`)

Each handler loads the job, sets PROCESSING and persists, runs the blocking
work off the event loop, then persists exactly one terminal update: COMPLETED
with the result payload on success, FAILED with
`{error_code: INTERNAL_ERROR, message: str(e)}` when anything in the `try`
block raises. The work outcome is abstracted as `Except String String`
(error message or section text); the job-record values the store sees are
collected as a trace. -/

/-- Result payload of a completed GENERATE job (main.py lines 278-286). -/
def mkGenerateResult (md : List (String × String)) (text : String) : JobResult :=
  { customer_id := alist_lookup md "customer_id"
    opportunity_id := alist_lookup md "opportunity_id"
    section_title := alist_lookup md "section_title"
    payload_key := RESP_DATA_KEY_GENERATED_SECTION_B64
    section_text := text }

/-- Result payload of a completed REFINE job (main.py lines 382-390). -/
def mkRefineResult (md : List (String × String)) (text : String) : JobResult :=
  { customer_id := alist_lookup md "customer_id"
    opportunity_id := alist_lookup md "opportunity_id"
    section_title := alist_lookup md "section_title"
    payload_key := RESP_DATA_KEY_REFINED_SECTION_B64
    section_text := text }

/-- The successive job-record values `job_generate` persists after loading the
job (main.py lines 227-298): PROCESSING, then exactly one terminal record. -/
def job_generate_steps (job : Job) (work : Except String String)
    (t1 t2 : Nat) : List Job :=
  let j1 := job.update_status JobStatus.processing t1 none none
  match work with
  | Except.ok text =>
    [j1, j1.update_status JobStatus.completed t2 (some (mkGenerateResult job.metadata text)) none]
  | Except.error msg =>
    [j1, j1.update_status JobStatus.failed t2 none
      (some { error_code := ERR_INTERNAL_ERROR, message := msg })]

/-- Same for `job_refine` (main.py lines 339-402). -/
def job_refine_steps (job : Job) (work : Except String String)
    (t1 t2 : Nat) : List Job :=
  let j1 := job.update_status JobStatus.processing t1 none none
  match work with
  | Except.ok text =>
    [j1, j1.update_status JobStatus.completed t2 (some (mkRefineResult job.metadata text)) none]
  | Except.error msg =>
    [j1, j1.update_status JobStatus.failed t2 none
      (some { error_code := ERR_INTERNAL_ERROR, message := msg })]

/-- The final job record a handler leaves behind. -/
def job_final (steps : List Job) (job : Job) : Job := steps.getLastD job

/-- Every job-record value over the life of a GENERATE job: the PENDING record
created by the `/generate` endpoint (main.py lines 423-432) followed by the
records persisted by `job_generate`. -/
def job_generate_lifecycle (job_id : String) (metadata : List (String × String))
    (work : Except String String) (t0 t1 t2 : Nat) : List Job :=
  let j := create_job job_id JOB_TYPE_GENERATE metadata t0
  j :: job_generate_steps j work t1 t2

/-- Every job-record value over the life of a REFINE job (`/refine` endpoint,
main.py lines 461-475, then `job_refine`). -/
def job_refine_lifecycle (job_id : String) (metadata : List (String × String))
    (work : Except String String) (t0 t1 t2 : Nat) : List Job :=
  let j := create_job job_id JOB_TYPE_REFINE metadata t0
  j :: job_refine_steps j work t1 t2

/-- The status values a lifecycle trace passes through. -/
def statusTrace (jobs : List Job) : List JobStatus := jobs.map Job.status

/-- The `result`/`error` state-machine invariant of one job record: `result`
and `error` are never both set, both are absent while the status is PENDING
or PROCESSING, `result` occurs only on COMPLETED and `error` only on FAILED
records. -/
def resultErrorInvariant (j : Job) : Bool :=
  !(j.result.isSome && j.error.isSome) &&
  (match j.status with
   | JobStatus.pending => j.result.isNone && j.error.isNone
   | JobStatus.processing => j.result.isNone && j.error.isNone
   | _ => true) &&
  (!j.result.isSome || decide (j.status = JobStatus.completed)) &&
  (!j.error.isSome || decide (j.status = JobStatus.failed))

/-! ## Session state (state.py) -/

/-- `FileRef` (state.py lines 8-15). -/
structure FileRef where
  name : String
  path : String
  fetched_at_epoch : Nat
deriving DecidableEq

/-- `SectionRef` (state.py lines 34-40). Note the stored-file field is named
`md_path` and is required; there is no field named `path`. -/
structure SectionRef where
  section_id : String
  key : String
  md_path : String
  docs_path : Option String
  updated_at : Nat
  source : String
deriving DecidableEq

/-- `SessionState` (state.py lines 44-81). The fields unused by every modelled
operation (`whisper_model_size`, `whisper_language`, `context_json`,
`context_loaded`, `last_db_sync_epoch`) are elided. -/
structure SessionState where
  session_id : String
  customer_id : Option String
  opportunity_id : Option String
  fail_fast : Bool
  transcripts : List (String × FileRef)
  context_extracted : Bool
  context : Option FileRef
  context_stats : Option FileRef
  completed_sections : List (String × SectionRef)
  completed_sections_fetched_at : List (String × Nat)
  cached_paths : List (String × String)
  transcripts_loaded : Bool
  last_updated_epoch : Nat
deriving DecidableEq

/-- A fresh `SessionState` for a new graph thread: every collection empty and
every stage flag false (the pydantic field defaults of state.py), with the
identifiers supplied by the submission. -/
def freshSessionState (session_id : String)
    (customer_id opportunity_id : Option String) (t : Nat) : SessionState :=
  { session_id := session_id
    customer_id := customer_id
    opportunity_id := opportunity_id
    fail_fast := false
    transcripts := []
    context_extracted := false
    context := none
    context_stats := none
    completed_sections := []
    completed_sections_fetched_at := []
    cached_paths := []
    transcripts_loaded := false
    last_updated_epoch := t }

/-! ## The world: session artifacts on disk and pipeline checkpoints

Durable state outside the job store: files written under `.temp/` and the
LangGraph checkpoint per `thread_id` (= session id). File contents are
tagged by what the program wrote, so that every claim about artifacts can be
stated structurally. -/

inductive FileContent
  | text : String → FileContent
  | factsJson : List FactRecord → FileContent
  | statsJson : List (String × (String × Nat × List Nat)) → FileContent
deriving DecidableEq

structure World where
  files : List (String × FileContent)
  checkpoints : List (String × SessionState)
deriving DecidableEq

/-- Render a stored file as the text a `read_text` call returns (the JSON
serialisations are injective renderings; their exact syntax never matters to
a claim, only to prompt contents, which the spec scopes out). -/
def renderContent : FileContent → String
  | FileContent.text s => s
  | FileContent.factsJson _ => "facts json"
  | FileContent.statsJson _ => "stats json"

def writeFile (w : World) (path : String) (c : FileContent) : World :=
  { w with files := alist_set w.files path c }

def setCheckpoint (w : World) (thread_id : String) (s : SessionState) : World :=
  { w with checkpoints := alist_set w.checkpoints thread_id s }

/-! ## Transcript loading stage (transcript_loader_node.py)

The supabase fetch and the format-dependent text extraction are external
collaborators (the spec's document-storage service); they enter as the
`blobs` list and the `extract` function. -/

/-- A fetched `TranscriptBlob` (transcript_loader_node.py lines 15-19);
`content` is the raw byte content, modelled as a string. -/
structure TranscriptBlob where
  name : String
  filename : String
  content : String
deriving DecidableEq

/-- Characters kept verbatim by `_safe_name`'s regex class `[a-z0-9_\-]`. -/
def safeNameChar (c : Char) : Bool :=
  ('a' ≤ c && c ≤ 'z') || ('0' ≤ c && c ≤ '9') || c = '_' || c = '-'

/-- `_safe_name` (transcript_loader_node.py lines 107-110): lower-case, strip,
replace every maximal run of disallowed characters by `_`, truncate to 80
characters, defaulting to `"file"` when empty. -/
def _safe_name (s : String) : String :=
  let t := strLower (strTrim s)
  let replaced := String.mk ((t.data.foldl
    (fun acc c =>
      if safeNameChar c then (acc.1 ++ [c], false)
      else (if acc.2 then acc.1 else acc.1 ++ ['_'], true))
    (([] : List Char), false)).1)
  let truncated := String.mk (replaced.data.take 80)
  if truncated = "" then "file" else truncated

/-- `_dedupe_name` (transcript_loader_node.py lines 131-137): append `_2`,
`_3`, … until `<name>.txt` does not exist in the output directory. The source
loop is unbounded but terminates because the directory is finite; it is
modelled as a bounded search over enough candidates (with the base name as
an unreachable fallback). -/
def _dedupe_name (base : String) (taken : List String) : String :=
  if taken.contains (base ++ ".txt") then
    match ((List.range (taken.length + 2)).map (fun i => i + 2)).find?
        (fun i => !taken.contains (base ++ "_" ++ toString i ++ ".txt")) with
    | some i => base ++ "_" ++ toString i
    | none => base
  else base

/-- `Path(filename).suffix.lower()`: the final `.ext` of a file name (empty
for no dot and for a bare leading dot). -/
def fileSuffix (s : String) : String :=
  match (strLower s).splitOn "." with
  | [] => ""
  | [_] => ""
  | first :: rest =>
    if first = "" ∧ rest.length = 1 then "" else "." ++ rest.getLastD ""

/-- State of the per-blob loop of `load_transcripts_once_per_session`
(transcript_loader_node.py lines 166-191): accumulated new transcript
entries, failure messages, files written so far in the extracted dir, and the
world. -/
structure LoadLoopState where
  new_transcripts : List (String × FileRef)
  failures : List String
  out_names : List String
  world : World
deriving DecidableEq

/-- One iteration of the blob loop: name the file, write the raw bytes,
extract text (collaborator call, may fail), write the extracted text and
record the `FileRef`. With `fail_fast` the first failure re-raises and aborts
the stage. -/
def loadBlobStep (session_id : String) (fail_fast : Bool)
    (extract : TranscriptBlob → Except String String) (now : Nat)
    (acc : Except String LoadLoopState) (blob : TranscriptBlob)
    : Except String LoadLoopState :=
  match acc with
  | Except.error e => Except.error e
  | Except.ok st =>
    let ext := fileSuffix blob.filename
    let base_name := _safe_name blob.name
    let name_key := _dedupe_name base_name st.out_names
    let raw_path := ".temp/transcripts/" ++ session_id ++ "/raw/" ++ name_key ++ ext
    let w1 := writeFile st.world raw_path (FileContent.text blob.content)
    match extract blob with
    | Except.ok text =>
      let txt_path := ".temp/transcripts/" ++ session_id ++ "/extracted/" ++ name_key ++ ".txt"
      Except.ok
        { new_transcripts := alist_set st.new_transcripts name_key
            { name := name_key, path := txt_path, fetched_at_epoch := now }
          failures := st.failures
          out_names := st.out_names ++ [name_key ++ ".txt"]
          world := writeFile w1 txt_path (FileContent.text text) }
    | Except.error msg =>
      let failure := blob.filename ++ " (" ++ blob.name ++ "): " ++ msg
      if fail_fast then Except.error failure
      else Except.ok { st with failures := st.failures ++ [failure], world := w1 }

/-- `load_transcripts_once_per_session` (transcript_loader_node.py lines
144-216): no-op when `transcripts_loaded` and some transcripts exist;
otherwise fetch blobs, extract each (collecting failures unless `fail_fast`),
merge the new entries into the existing transcript dict, record a failure
file, and set `transcripts_loaded = bool(merged)`. -/
def load_transcripts_once_per_session (state : SessionState) (w : World)
    (customer_id opportunity_id : String) (blobs : List TranscriptBlob)
    (extract : TranscriptBlob → Except String String) (now : Nat)
    : Except String (SessionState × World) :=
  if state.transcripts_loaded ∧ state.transcripts ≠ [] then Except.ok (state, w)
  else
    match blobs.foldl (loadBlobStep state.session_id state.fail_fast extract now)
        (Except.ok { new_transcripts := [], failures := [], out_names := [], world := w }) with
    | Except.error e => Except.error e
    | Except.ok st =>
      let merged := st.new_transcripts.foldl
        (fun acc e => alist_set acc e.1 e.2) state.transcripts
      let fail_path := ".temp/transcripts/" ++ state.session_id ++ "/extracted/_failures.txt"
      let w' :=
        if st.failures ≠ [] then
          writeFile st.world fail_path (FileContent.text (String.intercalate "\n" st.failures))
        else st.world
      let cached :=
        if st.failures ≠ [] then alist_set state.cached_paths "transcript_failures" fail_path
        else state.cached_paths
      Except.ok
        ({ state with
            customer_id := some customer_id
            opportunity_id := some opportunity_id
            last_updated_epoch := now
            transcripts := merged
            cached_paths := cached
            transcripts_loaded := merged ≠ [] }, w')

/-- Python truthiness of an optional string (`if not customer_id`). -/
def optTruthy : Option String → Bool
  | none => false
  | some s => if s = "" then false else true

/-- `ensure_transcripts_loaded` (transcript_loader_node.py lines 222-256):
skip the stage entirely when either identifier is missing. -/
def ensure_transcripts_loaded (state : SessionState) (w : World)
    (blobs : List TranscriptBlob)
    (extract : TranscriptBlob → Except String String) (now : Nat)
    : Except String (SessionState × World) :=
  if optTruthy state.customer_id = false ∨ optTruthy state.opportunity_id = false then
    Except.ok (state, w)
  else
    load_transcripts_once_per_session state w
      (state.customer_id.getD "") (state.opportunity_id.getD "") blobs extract now

/-! ## Fact extraction stage (context_extractor_node.py)

Chunking (`src/core/tools/chunk_text.py`, not under `src/`) and the
structured-generation provider are collaborators passed in as functions:
`chunker` splits a transcript text into `(chunk_id, chunk text)` pairs and
`genFacts tkey file_name chunk_id chunk` is the `generate_json` call for one
chunk — failure or non-list output makes the chunk be skipped, and pydantic
validation of the returned items (which drops invalid ones) is folded into
the collaborator, whose output is already a list of validated facts. -/

/-- `Path(p).name`: the final component of a path. -/
def pathBasename (p : String) : String := (p.splitOn "/").getLastD p

/-- Per-chunk step (context_extractor_node.py lines 186-216): a failed or
non-list provider response skips the chunk; a chunk with validated facts
records its chunk id and merges the facts with `_dedupe_merge`. -/
def extractChunkStep (tkey file_name : String)
    (genFacts : String → String → Nat → String → Except Unit (List FactRecord))
    (acc : List FactRecord × List Nat) (ch : Nat × String)
    : List FactRecord × List Nat :=
  match genFacts tkey file_name ch.1 ch.2 with
  | Except.error _ => acc
  | Except.ok chunk_facts =>
    if chunk_facts = [] then acc
    else (_dedupe_merge acc.1 chunk_facts, acc.2 ++ [ch.1])

/-- Per-transcript step (context_extractor_node.py lines 179-223): read the
extracted text (empty when the file is missing, `_read_transcripts` line 94),
chunk it, fold the chunks, and append the extraction-stats entry
`(num_chunks, chunks_with_facts)`. -/
def extractTranscriptStep (w : World)
    (chunker : String → List (Nat × String))
    (genFacts : String → String → Nat → String → Except Unit (List FactRecord))
    (acc : List FactRecord × List (String × (String × Nat × List Nat)))
    (entry : String × FileRef)
    : List FactRecord × List (String × (String × Nat × List Nat)) :=
  let text := match alist_lookup w.files entry.2.path with
    | some c => renderContent c
    | none => ""
  let file_name := pathBasename entry.2.path
  let chunks := chunker text
  let res := chunks.foldl (extractChunkStep entry.1 file_name genFacts) (acc.1, [])
  (res.1, acc.2 ++ [(entry.1, (file_name, chunks.length, res.2))])

/-- `ensure_context_extracted` (context_extractor_node.py lines 148-250):
no-op when already extracted and the artifact exists; with no transcripts it
returns `context_extracted = False, context = None`; transcripts present but
not loaded is an error; otherwise extract and dedup facts from every
transcript, then write the facts and stats artifacts and set
`context_extracted = True` with the `FileRef` to the facts collection. -/
def ensure_context_extracted (state : SessionState) (w : World)
    (chunker : String → List (Nat × String))
    (genFacts : String → String → Nat → String → Except Unit (List FactRecord))
    (now : Nat) : Except String (SessionState × World) :=
  if state.context_extracted &&
      (match state.context with
       | some c => (alist_lookup w.files c.path).isSome
       | none => false) then
    Except.ok (state, w)
  else if state.transcripts = [] then
    Except.ok ({ state with context_extracted := false, context := none }, w)
  else if state.transcripts_loaded = false then
    Except.error "Transcripts must be loaded before extracting facts."
  else
    let res := state.transcripts.foldl (extractTranscriptStep w chunker genFacts)
      (([] : List FactRecord), ([] : List (String × (String × Nat × List Nat))))
    let facts_path := ".temp/context/" ++ state.session_id ++ "_facts.json"
    let stats_path := ".temp/context/" ++ state.session_id ++ "_facts_stats.json"
    let w1 := writeFile w facts_path (FileContent.factsJson res.1)
    let w2 := writeFile w1 stats_path (FileContent.statsJson res.2)
    Except.ok
      ({ state with
          context_extracted := true
          context := some { name := "context_facts", path := facts_path, fetched_at_epoch := now }
          context_stats := some { name := "context_facts_stats", path := stats_path, fetched_at_epoch := now } },
        w2)

/-- Modelled from the spec: `build_sessiongraph`
(`src/core/graphs/build_session_graph.py`, not under `src/`) composes the
transcript-loading stage and the context-extraction stage in pipeline order;
`prepare_session_state` (generate_section.py lines 24-57) invokes the
compiled graph with `thread_id = session_id`, resuming from the checkpointed
session state when one exists (else starting fresh with the submission's
identifiers), merges each stage's returned delta into the state, and
checkpoints the final state under the per-session key. -/
def prepare_session_state (session_id : String)
    (customer_id opportunity_id : Option String)
    (blobs : List TranscriptBlob)
    (extract : TranscriptBlob → Except String String)
    (chunker : String → List (Nat × String))
    (genFacts : String → String → Nat → String → Except Unit (List FactRecord))
    (w : World) (now : Nat) : Except String (SessionState × World) :=
  let s0 := match alist_lookup w.checkpoints session_id with
    | some st => st
    | none => freshSessionState session_id customer_id opportunity_id now
  match ensure_transcripts_loaded s0 w blobs extract now with
  | Except.error e => Except.error e
  | Except.ok (s1, w1) =>
    match ensure_context_extracted s1 w1 chunker genFacts now with
    | Except.error e => Except.error e
    | Except.ok (s2, w2) => Except.ok (s2, setCheckpoint w2 session_id s2)

/-! ## Section generation (generate_section.py)

The section catalog `DOCUMENT_SECTIONS_CONFIG` lives in
`src/core/schemas/sections_schema.py` (not under `src/`; the spec describes
it as a catalog of declared rules/titles per report type and section), so it
is passed in as data. Prompt texts are injective compositions of their
semantic inputs (prompt wording is out of the spec's scope). -/

structure SectionCfg where
  title : String
  key : String
  llm_requirements : String
deriving DecidableEq

structure ReportCfg where
  sections : List SectionCfg
deriving DecidableEq

/-- The local `normalize` of `write_section` (generate_section.py lines
279-280): strip, lower, replace `-` by a space. -/
def wsNormalize (text : String) : String :=
  String.mk ((strLower (strTrim text)).data.map (fun c => if c = '-' then ' ' else c))

/-- `get_section_cfg` (generate_section.py lines 283-293): first section of
the report whose normalized title matches. -/
def get_section_cfg (report_cfg : ReportCfg) (section_name : String) : Option SectionCfg :=
  report_cfg.sections.find? (fun s => decide (wsNormalize s.title = wsNormalize section_name))

/-- Fallback rules for a section missing from the catalog (generate_section.py
lines 304-312). -/
def fallbackSectionRules : String :=
  "This section is not defined in the schema. Write only content explicitly relevant to the section title. Use only facts present in the provided context. Do not introduce recommendations, solutions, timelines, or content from other sections."

/-- Fallback section key: `section_title.lower().replace(" ", "-")`
(generate_section.py line 305). -/
def fallbackSectionKey (section_title : String) : String :=
  String.mk ((strLower section_title).data.map (fun c => if c = ' ' then '-' else c))

def filter_input_prompt (section_name section_rules facts : String) : String :=
  "FILTER\n" ++ section_name ++ "\n" ++ section_rules ++ "\n" ++ facts

def _build_section_prompt (report_type section_title : String)
    (explicit_requirements : Option String)
    (facts_text prior_sections section_rules : String) : String :=
  "SECTION\n" ++ report_type ++ "\n" ++ section_title ++ "\n" ++
    (match explicit_requirements with | some r => r | none => "") ++ "\n" ++
    section_rules ++ "\n" ++ facts_text ++ "\n" ++ prior_sections

def finalise_prompt (section_name section_content section_rules : String) : String :=
  "FINALISE\n" ++ section_name ++ "\n" ++ section_rules ++ "\n" ++ section_content

/-- Insertion sort on path strings, mirroring `sorted(...)`. -/
def insertSorted (p : String) : List String → List String
  | [] => [p]
  | q :: rest => if p ≤ q then p :: q :: rest else q :: insertSorted p rest

def sortPaths (l : List String) : List String := l.foldr insertSorted []

/-- The pydantic error `write_section` hits when constructing its
`SectionRef`: the call (generate_section.py lines 342-348) passes
`path=str(section_path)` but `SectionRef` (state.py lines 34-40) requires the
field `md_path` and has no field `path`, so validation fails. -/
def sectionRefValidationMsg : String :=
  "ValidationError: SectionRef field md_path required"

/-- `write_section` (generate_section.py lines 227-363). Returns the final
world (files written so far persist even when a later step raises) and either
the generated section content or the raised error. Two quirks of the source
are preserved: `filtered_facts` is computed but never used in the generation
prompt, and the prior-section scan reads `.temp/<sid>/sections/*.txt` while
sections are written to `.temp/sections/<sid>/<key>.md`. The final
`SectionRef` construction always raises (see `sectionRefValidationMsg`), so
the `Except.ok` branch is unreachable from this function. -/
def write_section (state : SessionState) (report_type section_title : String)
    (explicit_requirements : Option String)
    (catalog : List (String × ReportCfg)) (llm : String → String) (_now : Nat)
    (w : World) : World × Except String String :=
  if state.context_extracted = false then
    (w, Except.error "Context must be extracted before section generation.")
  else
    let facts_read : Except String String :=
      match state.context with
      | some ref =>
        if ref.path = "" then Except.ok ""
        else
          match alist_lookup w.files ref.path with
          | some c => Except.ok (renderContent c)
          | none => Except.error ("No such file: " ++ ref.path)
      | none => Except.ok ""
    match facts_read with
    | Except.error e => (w, Except.error e)
    | Except.ok facts_text =>
      let sections_dir := ".temp/" ++ state.session_id ++ "/sections"
      let prior_names := (w.files.map (fun e => e.1)).filter
        (fun p => p.startsWith (sections_dir ++ "/") && p.endsWith ".txt")
      let prior_sections := (sortPaths prior_names).map
        (fun p => "### " ++ p ++ "\n" ++
          (match alist_lookup w.files p with | some c => renderContent c | none => ""))
      match alist_lookup catalog report_type with
      | none => (w, Except.error ("Report '" ++ report_type ++ "' not found"))
      | some report_cfg =>
        let section_cfg := get_section_cfg report_cfg section_title
        let section_key := match section_cfg with
          | some c => c.key
          | none => fallbackSectionKey section_title
        let section_rules := match section_cfg with
          | some c => c.llm_requirements
          | none => fallbackSectionRules
        let _filtered_facts := llm (filter_input_prompt section_title section_rules facts_text)
        let prompt := _build_section_prompt report_type section_title
          explicit_requirements facts_text (String.intercalate "\n\n" prior_sections)
          section_rules
        let section_content := llm prompt
        let section_md := llm (finalise_prompt section_title section_content section_rules)
        let section_path := ".temp/sections/" ++ state.session_id ++ "/" ++ section_key ++ ".md"
        let w1 := writeFile w section_path (FileContent.text section_md)
        (w1, Except.error sectionRefValidationMsg)

/-! ## Section refinement (refine_section.py) -/

structure RefineResult where
  section_title : String
  report_type : String
  refined_section : String
deriving DecidableEq

def _build_refine_prompt (report_type section_title user_prompt original_text
    facts_text : String) : String :=
  "REFINE\n" ++ report_type ++ "\n" ++ section_title ++ "\n" ++ user_prompt ++
    "\n" ++ original_text ++ "\n" ++ facts_text

/-- `refine_section` (refine_section.py lines 80-155): load the session's
checkpoint (`"Session not initialized"` when there is none), optionally read
the facts artifact, call the provider once, and return the refined text in
the result dict. The checkpoint store holds the reconstructed
`SessionState` values directly (the `extract_state` branches for a malformed
checkpoint dict cannot fire for states this model ever checkpoints). Performs
no writes: the returned world is the input world on every path. -/
def refine_section (w : World)
    (session_id report_type section_title original_text user_prompt : String)
    (llm : String → String) : World × Except String RefineResult :=
  match alist_lookup w.checkpoints session_id with
  | none => (w, Except.error "Session not initialized")
  | some state =>
    let facts_text :=
      match state.context with
      | some ref =>
        if state.context_extracted then
          match alist_lookup w.files ref.path with
          | some c => renderContent c
          | none => ""
        else ""
      | none => ""
    let refined := llm (_build_refine_prompt report_type section_title
      user_prompt original_text facts_text)
    (w, Except.ok { section_title := section_title, report_type := report_type
                    refined_section := refined })

/-! ## Full job executions

`job_generate_run` / `job_refine_run` tie a handler's status updates to the
actual blocking work on the world, mirroring `blocking_work` of main.py
(lines 248-272 and 360-376). The base64 decode of `original_text`
(main.py lines 318-326) is an injective transport encoding and is elided:
job metadata carries the plain text. -/

def generate_blocking_work (session_id : String)
    (customer_id opportunity_id : Option String)
    (report_type section_title : String)
    (blobs : List TranscriptBlob)
    (extract : TranscriptBlob → Except String String)
    (chunker : String → List (Nat × String))
    (genFacts : String → String → Nat → String → Except Unit (List FactRecord))
    (catalog : List (String × ReportCfg)) (llm : String → String)
    (w : World) (now : Nat) : World × Except String String :=
  match prepare_session_state session_id customer_id opportunity_id blobs
      extract chunker genFacts w now with
  | Except.error e => (w, Except.error e)
  | Except.ok (s2, w2) => write_section s2 report_type section_title none catalog llm now w2

/-- One dispatched GENERATE job end to end: run the pipeline and section
generation, then leave the terminal job record `job_generate` persists. -/
def job_generate_run (job : Job)
    (blobs : List TranscriptBlob)
    (extract : TranscriptBlob → Except String String)
    (chunker : String → List (Nat × String))
    (genFacts : String → String → Nat → String → Except Unit (List FactRecord))
    (catalog : List (String × ReportCfg)) (llm : String → String)
    (w : World) (now t1 t2 : Nat) : World × Job :=
  let md := job.metadata
  let res := generate_blocking_work ((alist_lookup md "session_id").getD "")
    (alist_lookup md "customer_id") (alist_lookup md "opportunity_id")
    ((alist_lookup md "type").getD "") ((alist_lookup md "section_title").getD "")
    blobs extract chunker genFacts catalog llm w now
  (res.1, job_final (job_generate_steps job res.2 t1 t2) job)

/-- One dispatched REFINE job end to end. -/
def job_refine_run (job : Job) (llm : String → String) (w : World)
    (t1 t2 : Nat) : World × Job :=
  let md := job.metadata
  let res := refine_section w ((alist_lookup md "session_id").getD "")
    ((alist_lookup md "type").getD "") ((alist_lookup md "section_title").getD "")
    ((alist_lookup md "original_text").getD "") ((alist_lookup md "user_prompt").getD "")
    llm
  let work : Except String String := match res.2 with
    | Except.ok r => Except.ok r.refined_section
    | Except.error e => Except.error e
  (res.1, job_final (job_refine_steps job work t1 t2) job)

/-! ## Derived observations on the dedup index, used by the merge theorems -/

/-- Confidence rank of the fact stored at a key, if any. -/
def rankAt (idx : Index) (k : Key) : Option Nat :=
  (lookupKey idx k).map (fun f => rank f.confidence)

/-- How one upserted fact transforms the rank stored at key `k`: a fact at a
different (or empty) key leaves it alone, a fact at `k` installs its rank or
takes the maximum with the stored one. -/
def gk (k : Key) (o : Option Nat) (item : FactRecord) : Option Nat :=
  if (factKey item).2 ≠ "" ∧ factKey item = k then
    some (match o with
      | none => rank item.confidence
      | some r => max r (rank item.confidence))
  else o

/-- The evidence-free core of a fact: its type, raw value and confidence. -/
def projFact (f : FactRecord) : String × String × String :=
  (f.type, f.value, f.confidence)

/-- The evidence-free view of a dedup index. -/
def projIndex (idx : Index) : List (Key × (String × String × String)) :=
  idx.map (fun e => (e.1, projFact e.2))

/-- Well-formedness of one index entry: it is stored under the merge key of
its fact, and that key has a non-empty normalized value. -/
def entryWF (e : Key × FactRecord) : Prop :=
  e.1 = factKey e.2 ∧ e.1.2 ≠ ""

/-- Well-formedness of a dedup index: every entry is well-formed and the keys
are pairwise distinct (it is a dict). -/
def indexWF (idx : Index) : Prop :=
  (∀ e ∈ idx, entryWF e) ∧ (idx.map (fun e => e.1)).Nodup

/-! ## Concrete records used by counterexamples and witnesses -/

/-- A MEDIUM-confidence fact with raw value `"Budget"`. -/
def c4FactA : FactRecord :=
  { type := "KPI", value := "Budget", confidence := "MEDIUM", evidence := none }

/-- A MEDIUM-confidence duplicate of `c4FactA` (same merge key, different raw
value). -/
def c4FactB : FactRecord :=
  { type := "KPI", value := "budget", confidence := "MEDIUM", evidence := none }

/-- A LOW-confidence fact carrying an evidence quote. -/
def c5FactLowQuote : FactRecord :=
  { type := "RISK", value := "delay", confidence := "LOW"
    evidence := some { transcript_key := some "t1", transcript_file := some "call1.txt"
                       chunk_id := some 0, quote := some "the delay", anchor := none } }

/-- A HIGH-confidence duplicate of `c5FactLowQuote` with no evidence. -/
def c5FactHigh : FactRecord :=
  { type := "RISK", value := "delay", confidence := "HIGH", evidence := none }

/-- The fact with value `"  Budget  "` from the spec's dedup example. -/
def c6FactSpaced : FactRecord :=
  { type := "KPI", value := "  Budget  ", confidence := "MEDIUM", evidence := none }

/-- The fact with value `"budget"` from the spec's dedup example. -/
def c6FactPlain : FactRecord :=
  { type := "KPI", value := "budget", confidence := "LOW", evidence := none }

/-- Metadata of the C2 end-to-end GENERATE submission. -/
def c2Metadata : List (String × String) :=
  [("session_id", "s-empty"), ("type", "commercial-proposal"),
   ("customer_id", "cust-1"), ("opportunity_id", "opp-1"),
   ("section_title", "Executive Summary")]

/-- The PENDING job the `/generate` endpoint creates for that submission. -/
def c2Job : Job := create_job "job-c2" JOB_TYPE_GENERATE c2Metadata 0

/-- An empty world: no files, no checkpoints — a session with zero
transcripts and no prior pipeline run. -/
def emptyWorld : World := { files := [], checkpoints := [] }

/-- A section catalog entry for the witness data: the report type
`commercial-proposal` with an `Executive Summary` section. -/
def sampleCatalog : List (String × ReportCfg) :=
  [("commercial-proposal",
    { sections := [{ title := "Executive Summary", key := "executive-summary"
                     llm_requirements := "Summarise objectives and value." }] })]

/-- Concrete job used by the C10 witness. -/
def c10Job : Job := create_job "job-c10" JOB_TYPE_GENERATE [] 5

/-- Concrete job used by the C3 witness. -/
def c3Job : Job := create_job "job-c3" JOB_TYPE_GENERATE [] 0

/-- Concrete job used by the C7 witness: a REFINE submission for session
`"s-none"`. -/
def c7Job : Job :=
  create_job "job-c7" JOB_TYPE_REFINE
    [("session_id", "s-none"), ("type", "technical-scope"),
     ("section_title", "Scope"), ("original_text", "original"),
     ("user_prompt", "shorten to two paragraphs")] 0

/-! ## Helper lemmas -/

theorem alist_lookup_set_self {α : Type} (l : List (String × α)) (k : String) (v : α) :
    alist_lookup (alist_set l k v) k = some v := by
  induction l with
  | nil => simp [alist_set, alist_lookup]
  | cons e rest ih =>
    by_cases h : e.1 = k <;> simp [alist_set, alist_lookup, h, ih]

/-! ## Claim theorems -/

/-- C1: for every job, the status trace over its whole lifecycle — the
PENDING record created at submission, followed by every record the dispatcher
(`job_generate` / `job_refine`) persists — is exactly
PENDING, PROCESSING, COMPLETED or PENDING, PROCESSING, FAILED, whatever the
work outcome: PROCESSING is entered exactly once, a terminal status is
reached exactly once, and no transition follows a terminal status. -/
theorem job_status_transitions_follow_lifecycle
    (job_id : String) (md : List (String × String)) (work : Except String String)
    (t0 t1 t2 : Nat) :
    (statusTrace (job_generate_lifecycle job_id md work t0 t1 t2) =
        [JobStatus.pending, JobStatus.processing, JobStatus.completed] ∨
      statusTrace (job_generate_lifecycle job_id md work t0 t1 t2) =
        [JobStatus.pending, JobStatus.processing, JobStatus.failed]) ∧
    (statusTrace (job_refine_lifecycle job_id md work t0 t1 t2) =
        [JobStatus.pending, JobStatus.processing, JobStatus.completed] ∨
      statusTrace (job_refine_lifecycle job_id md work t0 t1 t2) =
        [JobStatus.pending, JobStatus.processing, JobStatus.failed]) := by
  constructor
  · cases work with
    | ok t => exact Or.inl rfl
    | error e => exact Or.inr rfl
  · cases work with
    | ok t => exact Or.inl rfl
    | error e => exact Or.inr rfl

/-- C8: every job record over the whole lifecycle of a GENERATE or REFINE job
satisfies `resultErrorInvariant`: `result` and `error` are never both set,
both are absent while the status is PENDING or PROCESSING, `result` appears
only on COMPLETED records and `error` only on FAILED records. -/
theorem job_result_error_mutually_exclusive
    (job_id : String) (md : List (String × String)) (work : Except String String)
    (t0 t1 t2 : Nat) :
    ((job_generate_lifecycle job_id md work t0 t1 t2).all resultErrorInvariant = true) ∧
    ((job_refine_lifecycle job_id md work t0 t1 t2).all resultErrorInvariant = true) := by
  constructor
  · cases work with
    | ok t => rfl
    | error e => rfl
  · cases work with
    | ok t => rfl
    | error e => rfl

/-- C10: `update_job` on the in-memory backend with a job whose id is not in
the store leaves the store mapping completely unchanged (the write is
silently dropped, so the id still reads as absent), while the Redis backend's
`update_job` unconditionally writes the record — the freshly written job is
immediately retrievable under the same, previously absent id. -/
theorem update_job_absent_id_backend_divergence
    (s : InMemStore) (r : RedisStore) (job : Job) (now : Nat)
    (h : inMemory_get_job s job.job_id = none) :
    inMemory_update_job s job = s ∧
    inMemory_get_job (inMemory_update_job s job) job.job_id = none ∧
    redis_get_job (redis_update_job r job now) job.job_id now = some job := by
  have hs : inMemory_update_job s job = s := by
    unfold inMemory_update_job
    unfold inMemory_get_job at h
    simp [h]
  refine ⟨hs, by rw [hs]; exact h, ?_⟩
  unfold redis_get_job redis_update_job
  rw [alist_lookup_set_self]
  simp [REDIS_JOB_TTL_SECONDS]

/-- C10 witness: on the empty in-memory store and empty Redis store, updating
the never-created `c10Job` leaves the in-memory store empty while the Redis
store returns the record. -/
theorem update_job_absent_id_backend_divergence_witness :
    inMemory_get_job [] c10Job.job_id = none ∧
    (inMemory_update_job [] c10Job = [] ∧
      inMemory_get_job (inMemory_update_job [] c10Job) c10Job.job_id = none ∧
      redis_get_job (redis_update_job [] c10Job 7) c10Job.job_id 7 = some c10Job) :=
  ⟨rfl, update_job_absent_id_backend_divergence [] [] c10Job 7 rfl⟩

/-- C9: executing a REFINE job leaves the world — every persisted file
(hence every section artifact) and every checkpointed session state (hence
every `completed_sections` mapping) — exactly as it was: `refine_section`
only reads, and the refined text travels only in the final job record. -/
theorem job_refine_preserves_world (job : Job) (llm : String → String)
    (w : World) (t1 t2 : Nat) :
    (job_refine_run job llm w t1 t2).1 = w := by
  cases h : alist_lookup w.checkpoints ((alist_lookup job.metadata "session_id").getD "") <;>
    simp [job_refine_run, refine_section, h]

/-- C3: when the session state seen by section generation does not have
`context_extracted = true` (in particular for a session whose transcript list
is empty and where extraction never ran), `write_section` raises the
precondition error before writing anything, and the dispatcher records the
job as FAILED with the structured error
`{error_code: INTERNAL_ERROR, message: ...}`. -/
theorem write_section_requires_context_extracted
    (state : SessionState) (h : state.context_extracted = false)
    (report_type section_title : String) (er : Option String)
    (catalog : List (String × ReportCfg)) (llm : String → String)
    (now t1 t2 : Nat) (w : World) (job : Job) :
    write_section state report_type section_title er catalog llm now w =
      (w, Except.error "Context must be extracted before section generation.") ∧
    (job_final (job_generate_steps job
      (Except.error "Context must be extracted before section generation.") t1 t2) job).status =
        JobStatus.failed ∧
    (job_final (job_generate_steps job
      (Except.error "Context must be extracted before section generation.") t1 t2) job).error =
        some { error_code := ERR_INTERNAL_ERROR
               message := "Context must be extracted before section generation." } := by
  refine ⟨?_, rfl, rfl⟩
  unfold write_section
  rw [h]
  rfl

/-- C3 witness: a fresh session state (transcripts empty, extraction never
ran) makes `write_section` fail and the job end FAILED. -/
theorem write_section_requires_context_extracted_witness :
    (freshSessionState "s-c3" none none 0).context_extracted = false ∧
    (write_section (freshSessionState "s-c3" none none 0) "commercial-proposal"
        "Executive Summary" none sampleCatalog (fun _ => "text") 3 emptyWorld =
      (emptyWorld, Except.error "Context must be extracted before section generation.") ∧
    (job_final (job_generate_steps c3Job
      (Except.error "Context must be extracted before section generation.") 1 2) c3Job).status =
        JobStatus.failed ∧
    (job_final (job_generate_steps c3Job
      (Except.error "Context must be extracted before section generation.") 1 2) c3Job).error =
        some { error_code := ERR_INTERNAL_ERROR
               message := "Context must be extracted before section generation." }) :=
  ⟨rfl, write_section_requires_context_extracted (freshSessionState "s-c3" none none 0) rfl
    "commercial-proposal" "Executive Summary" none sampleCatalog (fun _ => "text")
    3 1 2 emptyWorld c3Job⟩

/-- C7: a REFINE job for a session with no previously persisted pipeline
checkpoint fails its precondition: for every provider function,
`refine_section` returns the `"Session not initialized"` error without
producing any output (the outcome does not depend on the provider at all, so
the provider is never consulted), and the dispatcher records the job FAILED
with the structured error `{error_code: INTERNAL_ERROR, message: "Session not
initialized"}`. -/
theorem refine_without_checkpoint_fails (job : Job) (w : World) (t1 t2 : Nat)
    (h : alist_lookup w.checkpoints ((alist_lookup job.metadata "session_id").getD "") = none) :
    ∀ llm : String → String,
      refine_section w ((alist_lookup job.metadata "session_id").getD "")
          ((alist_lookup job.metadata "type").getD "")
          ((alist_lookup job.metadata "section_title").getD "")
          ((alist_lookup job.metadata "original_text").getD "")
          ((alist_lookup job.metadata "user_prompt").getD "") llm =
        (w, Except.error "Session not initialized") ∧
      (job_refine_run job llm w t1 t2).2.status = JobStatus.failed ∧
      (job_refine_run job llm w t1 t2).2.error =
        some { error_code := ERR_INTERNAL_ERROR, message := "Session not initialized" } := by
  intro llm
  have hr : refine_section w ((alist_lookup job.metadata "session_id").getD "")
      ((alist_lookup job.metadata "type").getD "")
      ((alist_lookup job.metadata "section_title").getD "")
      ((alist_lookup job.metadata "original_text").getD "")
      ((alist_lookup job.metadata "user_prompt").getD "") llm =
      (w, Except.error "Session not initialized") := by
    unfold refine_section
    rw [h]
  refine ⟨hr, ?_, ?_⟩ <;>
    simp [job_refine_run, hr, job_refine_steps, job_final, Job.update_status]

/-- C7 witness: the REFINE job `c7Job` against the empty world (no checkpoint
for its session `"s-none"`) fails with the precondition error. -/
theorem refine_without_checkpoint_fails_witness :
    alist_lookup emptyWorld.checkpoints
      ((alist_lookup c7Job.metadata "session_id").getD "") = none ∧
    (refine_section emptyWorld ((alist_lookup c7Job.metadata "session_id").getD "")
        ((alist_lookup c7Job.metadata "type").getD "")
        ((alist_lookup c7Job.metadata "section_title").getD "")
        ((alist_lookup c7Job.metadata "original_text").getD "")
        ((alist_lookup c7Job.metadata "user_prompt").getD "") (fun p => p) =
      (emptyWorld, Except.error "Session not initialized") ∧
    (job_refine_run c7Job (fun p => p) emptyWorld 1 2).2.status = JobStatus.failed ∧
    (job_refine_run c7Job (fun p => p) emptyWorld 1 2).2.error =
      some { error_code := ERR_INTERNAL_ERROR, message := "Session not initialized" }) :=
  ⟨rfl, refine_without_checkpoint_fails c7Job emptyWorld 1 2 rfl (fun p => p)⟩

/-- C6: two facts of the same type whose values agree after normalization
(lower-casing, trimming, collapsing internal whitespace) merge into a single
entry of the deduplicated collection (provided the normalized value is
non-empty, else both are discarded). -/
theorem dedupe_merge_normalized_duplicates (f g : FactRecord)
    (ht : f.type = g.type) (hv : _normalize f.value = _normalize g.value)
    (hne : _normalize f.value ≠ "") :
    (_dedupe_merge [] [f, g]).length = 1 := by
  have hk : factKey g = factKey f := by
    unfold factKey
    rw [← ht, ← hv]
  have h1 : upsert [] f = [(factKey f, f)] := by
    unfold upsert lookupKey
    simp [factKey, hne]
  unfold _dedupe_merge mergeIndex
  simp only [List.foldl, h1]
  unfold upsert
  rw [hk]
  simp only [factKey, hne]
  simp only [lookupKey, if_pos rfl]
  split
  · simp [replaceKey]
  · split
    · simp_all
    · split <;> simp [replaceKey]

/-- C6 witness: `"  Budget  "` and `"budget"` of type KPI produce one entry. -/
theorem dedupe_merge_normalized_duplicates_witness :
    c6FactSpaced.type = c6FactPlain.type ∧
    _normalize c6FactSpaced.value = _normalize c6FactPlain.value ∧
    _normalize c6FactSpaced.value ≠ "" ∧
    (_dedupe_merge [] [c6FactSpaced, c6FactPlain]).length = 1 :=
  ⟨rfl, by decide, by decide,
    dedupe_merge_normalized_duplicates c6FactSpaced c6FactPlain rfl (by decide) (by decide)⟩

/-- C4 counterexample: the merged collection is not invariant under the
arrival order of duplicate facts — `c4FactA` and `c4FactB` are duplicates of
equal confidence (so confidence ranking does not determine a survivor), and
swapping which variant arrives first changes the merged collection: the
first-arriving variant survives. -/
theorem dedupe_merge_order_dependent_counterexample :
    _dedupe_merge [] [c4FactA, c4FactB] ≠ _dedupe_merge [] [c4FactB, c4FactA] := by decide

/-- C5 counterexample: the merge is not idempotent. With
`B = [c5FactLowQuote, c5FactHigh]` (same key, LOW with an evidence quote
before HIGH without one), the first merge keeps the HIGH fact without a
quote; merging the same batch again backfills the LOW fact's quote into it,
so `merge(merge([], B), B) ≠ merge([], B)`. -/
theorem dedupe_merge_not_idempotent_counterexample :
    _dedupe_merge (_dedupe_merge [] [c5FactLowQuote, c5FactHigh]) [c5FactLowQuote, c5FactHigh] ≠
      _dedupe_merge [] [c5FactLowQuote, c5FactHigh] := by decide

/-- C2 (evaluation of the code at the claim's input): submitting a GENERATE
job for section "Executive Summary" on a session with zero transcripts does
not complete — the transcript-loading stage leaves `transcripts_loaded`
false with an empty transcript map, the extraction stage then returns
`context_extracted = False`, `write_section` raises its precondition error,
and the dispatcher records the job FAILED (result absent), contrary to the
claimed COMPLETED outcome with a non-empty generated section. (Independently,
`write_section` can never reach its success path: its `SectionRef`
construction omits the required `md_path` field, see
`sectionRefValidationMsg`.) -/
theorem generate_zero_transcripts_job_fails :
    (job_generate_run c2Job [] (fun _ => Except.ok "") (fun _ => [])
        (fun _ _ _ _ => Except.ok []) sampleCatalog (fun _ => "generated text")
        emptyWorld 0 1 2).2.status = JobStatus.failed ∧
    (job_generate_run c2Job [] (fun _ => Except.ok "") (fun _ => [])
        (fun _ _ _ _ => Except.ok []) sampleCatalog (fun _ => "generated text")
        emptyWorld 0 1 2).2.error =
      some { error_code := ERR_INTERNAL_ERROR
             message := "Context must be extracted before section generation." } ∧
    (job_generate_run c2Job [] (fun _ => Except.ok "") (fun _ => [])
        (fun _ _ _ _ => Except.ok []) sampleCatalog (fun _ => "generated text")
        emptyWorld 0 1 2).2.result = none := by
  refine ⟨?_, ?_, ?_⟩ <;> rfl

/-! ## Rank structure of the dedup index -/

theorem upsert_empty_key (idx : Index) (item : FactRecord)
    (h : (factKey item).2 = "") : upsert idx item = idx := by
  unfold upsert
  rw [if_pos h]

theorem upsert_new_key (idx : Index) (item : FactRecord)
    (h2 : (factKey item).2 ≠ "") (h : lookupKey idx (factKey item) = none) :
    upsert idx item = idx ++ [(factKey item, item)] := by
  unfold upsert
  rw [if_neg h2, h]

theorem upsert_replace_higher (idx : Index) (item cur : FactRecord)
    (h2 : (factKey item).2 ≠ "") (h : lookupKey idx (factKey item) = some cur)
    (hc : rank cur.confidence < rank item.confidence) :
    upsert idx item = replaceKey idx (factKey item) item := by
  unfold upsert
  rw [if_neg h2, h]
  exact if_pos hc

theorem upsert_keep_existing (idx : Index) (item cur : FactRecord)
    (h2 : (factKey item).2 ≠ "") (h : lookupKey idx (factKey item) = some cur)
    (hc : ¬rank cur.confidence < rank item.confidence) :
    upsert idx item =
      replaceKey idx (factKey item) { cur with evidence := some (backfillEvidence cur item) } := by
  unfold upsert
  rw [if_neg h2, h]
  exact if_neg hc

theorem lookupKey_append (idx : Index) (k k' : Key) (f : FactRecord) :
    lookupKey (idx ++ [(k', f)]) k =
      match lookupKey idx k with
      | some c => some c
      | none => if k' = k then some f else none := by
  induction idx with
  | nil => simp [lookupKey]
  | cons e rest ih =>
    by_cases h : e.1 = k <;> simp [lookupKey, h, ih]

theorem lookupKey_replaceKey (idx : Index) (k k' : Key) (f : FactRecord) :
    lookupKey (replaceKey idx k' f) k =
      if k' = k then
        (match lookupKey idx k' with
         | some _ => some f
         | none => none)
      else lookupKey idx k := by
  induction idx with
  | nil => by_cases h : k' = k <;> simp [lookupKey, replaceKey, h]
  | cons e rest ih =>
    by_cases he : e.1 = k'
    · by_cases hk : k' = k
      · subst hk
        simp [replaceKey, lookupKey, he]
      · have hek : ¬e.1 = k := by rw [he]; exact hk
        simp [replaceKey, lookupKey, he, hk, hek, ih]
    · by_cases hk : k' = k
      · subst hk
        simp [replaceKey, lookupKey, he, ih]
      · have hkk : ¬k = k' := fun hh => hk hh.symm
        by_cases hek : e.1 = k <;> simp [replaceKey, lookupKey, he, hek, ih, hk, hkk]

theorem rankAt_upsert (idx : Index) (item : FactRecord) (k : Key) :
    rankAt (upsert idx item) k = gk k (rankAt idx k) item := by
  by_cases hk2 : (factKey item).2 = ""
  · rw [upsert_empty_key idx item hk2]
    simp [gk, hk2]
  · cases hl : lookupKey idx (factKey item) with
    | none =>
      rw [upsert_new_key idx item hk2 hl]
      unfold rankAt
      rw [lookupKey_append]
      by_cases hkk : factKey item = k
      · subst hkk
        rw [hl]
        simp [gk, hk2, hl]
      · simp only [gk, hk2, hkk]
        cases hq : lookupKey idx k <;> simp [hq, hkk, hk2]
    | some cur =>
      by_cases hc : rank cur.confidence < rank item.confidence
      · rw [upsert_replace_higher idx item cur hk2 hl hc]
        unfold rankAt
        rw [lookupKey_replaceKey]
        by_cases hkk : factKey item = k
        · subst hkk
          rw [if_pos rfl, hl]
          simp [gk, hk2, hl, Nat.max_eq_right (Nat.le_of_lt hc)]
        · rw [if_neg hkk]
          simp [gk, hk2, hkk]
      · rw [upsert_keep_existing idx item cur hk2 hl hc]
        unfold rankAt
        rw [lookupKey_replaceKey]
        by_cases hkk : factKey item = k
        · subst hkk
          rw [if_pos rfl, hl]
          simp [gk, hk2, hl]
          exact Nat.le_of_not_lt hc
        · rw [if_neg hkk]
          simp [gk, hk2, hkk]

theorem rankAt_foldl (L : List FactRecord) (idx : Index) (k : Key) :
    rankAt (L.foldl upsert idx) k = L.foldl (gk k) (rankAt idx k) := by
  induction L generalizing idx with
  | nil => rfl
  | cons a rest ih =>
    simp only [List.foldl_cons]
    rw [ih, rankAt_upsert]

theorem gk_left_comm (k : Key) (o : Option Nat) (a b : FactRecord) :
    gk k (gk k o a) b = gk k (gk k o b) a := by
  unfold gk
  split_ifs <;> cases o <;> simp <;> omega

theorem foldl_gk_perm (k : Key) {L L' : List FactRecord} (h : L.Perm L') :
    ∀ o : Option Nat, L.foldl (gk k) o = L'.foldl (gk k) o := by
  induction h with
  | nil => intro o; rfl
  | cons x _ ih =>
    intro o
    simp only [List.foldl_cons]
    exact ih _
  | swap x y l =>
    intro o
    simp only [List.foldl_cons]
    rw [gk_left_comm]
  | trans _ _ ih1 ih2 =>
    intro o
    rw [ih1, ih2]

/-- C4 (amended): one dedup merge call is order-independent at the level of
merge keys and surviving confidences — for every permutation of the batch
and every key, the merged collection contains the key in one order iff it
does in the other, and the surviving fact's confidence rank is the same.
(The full surviving variant is *not* order-independent when duplicates tie
on confidence; see the counterexample.) -/
theorem dedupe_merge_rank_perm_invariant (C B B' : List FactRecord)
    (h : B.Perm B') (k : Key) :
    rankAt (mergeIndex C B) k = rankAt (mergeIndex C B') k ∧
    (lookupKey (mergeIndex C B) k).isSome = (lookupKey (mergeIndex C B') k).isSome := by
  have hr : rankAt (mergeIndex C B) k = rankAt (mergeIndex C B') k := by
    unfold mergeIndex
    rw [rankAt_foldl B, rankAt_foldl B']
    exact foldl_gk_perm k h _
  refine ⟨hr, ?_⟩
  have hs := congrArg Option.isSome hr
  simpa [rankAt] using hs

/-- C4 witness: swapping the two equal-confidence duplicates `c4FactA`,
`c4FactB` preserves presence and rank at their shared key. -/
theorem dedupe_merge_rank_perm_invariant_witness :
    ([c4FactA, c4FactB].Perm [c4FactB, c4FactA]) ∧
    (rankAt (mergeIndex [] [c4FactA, c4FactB]) ("KPI", "budget") =
        rankAt (mergeIndex [] [c4FactB, c4FactA]) ("KPI", "budget") ∧
      (lookupKey (mergeIndex [] [c4FactA, c4FactB]) ("KPI", "budget")).isSome =
        (lookupKey (mergeIndex [] [c4FactB, c4FactA]) ("KPI", "budget")).isSome) :=
  ⟨List.Perm.swap c4FactB c4FactA [],
    dedupe_merge_rank_perm_invariant [] [c4FactA, c4FactB] [c4FactB, c4FactA]
      (List.Perm.swap c4FactB c4FactA []) ("KPI", "budget")⟩

/-! ## Well-formedness of the dedup index -/

theorem lookupKey_none_iff (idx : Index) (k : Key) :
    lookupKey idx k = none ↔ ∀ e ∈ idx, e.1 ≠ k := by
  induction idx with
  | nil => simp [lookupKey]
  | cons e rest ih => by_cases h : e.1 = k <;> simp [lookupKey, h, ih]

theorem lookupKey_mem {idx : Index} {k : Key} {cur : FactRecord}
    (h : lookupKey idx k = some cur) : (k, cur) ∈ idx := by
  induction idx with
  | nil => simp [lookupKey] at h
  | cons e rest ih =>
    by_cases he : e.1 = k
    · simp only [lookupKey, if_pos he, Option.some.injEq] at h
      subst h
      rw [← he]
      exact List.mem_cons_self e rest
    · simp only [lookupKey, if_neg he] at h
      exact List.mem_cons_of_mem e (ih h)

theorem keys_replaceKey (idx : Index) (k : Key) (f : FactRecord) :
    (replaceKey idx k f).map (fun e => e.1) = idx.map (fun e => e.1) := by
  induction idx with
  | nil => rfl
  | cons e rest ih => by_cases h : e.1 = k <;> simp [replaceKey, h, ih]

theorem mem_replaceKey {idx : Index} {k : Key} {f : FactRecord} {x : Key × FactRecord}
    (h : x ∈ replaceKey idx k f) : x ∈ idx ∨ x = (k, f) := by
  induction idx with
  | nil => simp [replaceKey] at h
  | cons e rest ih =>
    by_cases he : e.1 = k
    · simp only [replaceKey, if_pos he, List.mem_cons] at h
      rcases h with h | h
      · exact Or.inr h
      · exact Or.inl (List.mem_cons_of_mem e h)
    · simp only [replaceKey, if_neg he, List.mem_cons] at h
      rcases h with h | h
      · exact Or.inl (h ▸ List.mem_cons_self e rest)
      · rcases ih h with h1 | h2
        · exact Or.inl (List.mem_cons_of_mem e h1)
        · exact Or.inr h2

theorem factKey_evidence_update (cur : FactRecord) (ev : Option Evidence) :
    factKey { cur with evidence := ev } = factKey cur := rfl

theorem indexWF_nil : indexWF [] := by
  constructor
  · intro e he
    simp at he
  · simp

theorem upsert_WF {idx : Index} (h : indexWF idx) (item : FactRecord) :
    indexWF (upsert idx item) := by
  by_cases hk2 : (factKey item).2 = ""
  · rw [upsert_empty_key idx item hk2]
    exact h
  · cases hl : lookupKey idx (factKey item) with
    | none =>
      rw [upsert_new_key idx item hk2 hl]
      constructor
      · intro e he
        rcases List.mem_append.mp he with h1 | h2
        · exact h.1 e h1
        · simp only [List.mem_singleton] at h2
          subst h2
          exact ⟨rfl, hk2⟩
      · rw [List.map_append]
        refine List.Nodup.append h.2 (List.nodup_singleton _) ?_
        intro a ha hb
        simp only [List.map_cons, List.map_nil, List.mem_singleton] at hb
        subst hb
        rcases List.mem_map.mp ha with ⟨e, he, hek⟩
        exact ((lookupKey_none_iff idx (factKey item)).mp hl e he) hek
    | some cur =>
      have hwf_cur : factKey cur = factKey item := by
        have hmem := lookupKey_mem hl
        exact ((h.1 _ hmem).1).symm
      by_cases hc : rank cur.confidence < rank item.confidence
      · rw [upsert_replace_higher idx item cur hk2 hl hc]
        constructor
        · intro e he
          rcases mem_replaceKey he with h1 | h2
          · exact h.1 e h1
          · subst h2
            exact ⟨rfl, hk2⟩
        · rw [keys_replaceKey]
          exact h.2
      · rw [upsert_keep_existing idx item cur hk2 hl hc]
        constructor
        · intro e he
          rcases mem_replaceKey he with h1 | h2
          · exact h.1 e h1
          · subst h2
            exact ⟨hwf_cur.symm, hk2⟩
        · rw [keys_replaceKey]
          exact h.2

theorem foldl_upsert_WF (L : List FactRecord) : ∀ {idx : Index}, indexWF idx →
    indexWF (L.foldl upsert idx) := by
  induction L with
  | nil => intro idx h; exact h
  | cons a rest ih =>
    intro idx h
    exact ih (upsert_WF h a)

theorem mergeIndex_WF (C B : List FactRecord) : indexWF (mergeIndex C B) :=
  foldl_upsert_WF B (foldl_upsert_WF C indexWF_nil)

/-! ## Refolding a well-formed index from its values -/

theorem upsert_cons_ne (k0 : Key) (f0 : FactRecord) (idx : Index) (item : FactRecord)
    (h : factKey item ≠ k0) :
    upsert ((k0, f0) :: idx) item = (k0, f0) :: upsert idx item := by
  have hk0 : ¬(k0, f0).1 = factKey item := fun hh => h hh.symm
  have hlc : lookupKey ((k0, f0) :: idx) (factKey item) = lookupKey idx (factKey item) := by
    simp [lookupKey, hk0]
  by_cases hk2 : (factKey item).2 = ""
  · rw [upsert_empty_key _ _ hk2, upsert_empty_key _ _ hk2]
  · cases hl : lookupKey idx (factKey item) with
    | none =>
      rw [upsert_new_key _ _ hk2 (hlc.trans hl), upsert_new_key _ _ hk2 hl]
      rfl
    | some cur =>
      by_cases hc : rank cur.confidence < rank item.confidence
      · rw [upsert_replace_higher _ _ cur hk2 (hlc.trans hl) hc,
          upsert_replace_higher _ _ cur hk2 hl hc]
        simp [replaceKey, hk0]
      · rw [upsert_keep_existing _ _ cur hk2 (hlc.trans hl) hc,
          upsert_keep_existing _ _ cur hk2 hl hc]
        simp [replaceKey, hk0]

theorem foldl_upsert_cons (facts : List FactRecord) (k0 : Key) (f0 : FactRecord) :
    ∀ idx : Index, (∀ f ∈ facts, factKey f ≠ k0) →
      facts.foldl upsert ((k0, f0) :: idx) = (k0, f0) :: facts.foldl upsert idx := by
  induction facts with
  | nil => intro idx _; rfl
  | cons a rest ih =>
    intro idx h
    simp only [List.foldl_cons]
    rw [upsert_cons_ne k0 f0 idx a (h a (List.mem_cons_self a rest)),
      ih (upsert idx a) (fun f hf => h f (List.mem_cons_of_mem a hf))]

theorem refold_index : ∀ {idx : Index}, indexWF idx →
    (idx.map (fun e => e.2)).foldl upsert [] = idx := by
  intro idx
  induction idx with
  | nil => intro _; rfl
  | cons e rest ih =>
    intro h
    have hwf_e : entryWF e := h.1 e (List.mem_cons_self e rest)
    have hnodup := List.nodup_cons.mp h.2
    have hrest : indexWF rest :=
      ⟨fun x hx => h.1 x (List.mem_cons_of_mem e hx), hnodup.2⟩
    have hk2 : (factKey e.2).2 ≠ "" := by
      rw [← hwf_e.1]
      exact hwf_e.2
    simp only [List.map_cons, List.foldl_cons]
    have h1 : upsert [] e.2 = (e.1, e.2) :: [] := by
      rw [upsert_new_key [] e.2 hk2 rfl, ← hwf_e.1]
      rfl
    rw [h1]
    have hkeys : ∀ f ∈ rest.map (fun x => x.2), factKey f ≠ e.1 := by
      intro f hf
      rcases List.mem_map.mp hf with ⟨x, hx, hfx⟩
      subst hfx
      have hx1 : x.1 = factKey x.2 := (h.1 x (List.mem_cons_of_mem e hx)).1
      intro hcontra
      apply hnodup.1
      show e.1 ∈ List.map (fun y => y.1) rest
      rw [← hcontra, ← hx1]
      exact List.mem_map_of_mem (fun y => y.1) hx
    rw [foldl_upsert_cons _ _ _ [] hkeys, ih hrest]

/-! ## Evidence-free projections of the index -/

theorem projFact_confidence {f g : FactRecord} (h : projFact f = projFact g) :
    f.confidence = g.confidence := by
  simp only [projFact, Prod.mk.injEq] at h
  exact h.2.2

theorem lookupKey_proj_congr : ∀ {idx idx' : Index},
    projIndex idx = projIndex idx' → ∀ k : Key,
      (lookupKey idx k).map projFact = (lookupKey idx' k).map projFact := by
  intro idx
  induction idx with
  | nil =>
    intro idx' h k
    cases idx' with
    | nil => rfl
    | cons e' rest' => simp [projIndex] at h
  | cons e rest ih =>
    intro idx' h k
    cases idx' with
    | nil => simp [projIndex] at h
    | cons e' rest' =>
      simp only [projIndex, List.map_cons, List.cons.injEq, Prod.mk.injEq] at h
      obtain ⟨⟨hk1, hp1⟩, h2⟩ := h
      by_cases hek : e.1 = k
      · have hek' : e'.1 = k := by rw [← hk1]; exact hek
        simp [lookupKey, hek, hek', hp1]
      · have hek' : ¬e'.1 = k := by rw [← hk1]; exact hek
        simp only [lookupKey, if_neg hek, if_neg hek']
        exact ih h2 k

theorem projIndex_cons (x : Key × FactRecord) (l : Index) :
    projIndex (x :: l) = (x.1, projFact x.2) :: projIndex l := rfl

theorem projIndex_replaceKey : ∀ (idx : Index) (k : Key) (f' cur : FactRecord),
    lookupKey idx k = some cur → projFact f' = projFact cur →
      projIndex (replaceKey idx k f') = projIndex idx := by
  intro idx
  induction idx with
  | nil => intro k f' cur h _; simp [lookupKey] at h
  | cons e rest ih =>
    intro k f' cur h hp
    by_cases he : e.1 = k
    · simp only [lookupKey, if_pos he, Option.some.injEq] at h
      have hrk : replaceKey (e :: rest) k f' = (k, f') :: rest := by
        simp [replaceKey, he]
      rw [hrk, projIndex_cons, projIndex_cons]
      rw [← he, hp, h]
    · simp only [lookupKey, if_neg he] at h
      have hrk : replaceKey (e :: rest) k f' = e :: replaceKey rest k f' := by
        simp [replaceKey, he]
      rw [hrk, projIndex_cons, projIndex_cons, ih k f' cur h hp]

theorem projIndex_upsert_dominated (idx : Index) (item cur : FactRecord)
    (hk2 : (factKey item).2 ≠ "") (hl : lookupKey idx (factKey item) = some cur)
    (hle : rank item.confidence ≤ rank cur.confidence) :
    projIndex (upsert idx item) = projIndex idx := by
  rw [upsert_keep_existing idx item cur hk2 hl (Nat.not_lt.mpr hle)]
  exact projIndex_replaceKey idx (factKey item) _ cur hl rfl

/-! ## Every fact of the batch is dominated by the merged index -/

theorem foldl_gk_some_le (k : Key) (L : List FactRecord) :
    ∀ (r : Nat), ∃ r', L.foldl (gk k) (some r) = some r' ∧ r ≤ r' := by
  induction L with
  | nil => intro r; exact ⟨r, rfl, Nat.le_refl r⟩
  | cons a rest ih =>
    intro r
    simp only [List.foldl_cons]
    unfold gk
    by_cases ha : (factKey a).2 ≠ "" ∧ factKey a = k
    · rw [if_pos ha]
      obtain ⟨r', h', hle⟩ := ih (max r (rank a.confidence))
      exact ⟨r', h', Nat.le_trans (Nat.le_max_left _ _) hle⟩
    · rw [if_neg ha]
      exact ih r

theorem foldl_gk_mem_ge (k : Key) (b : FactRecord) (hbk : factKey b = k)
    (hk2 : k.2 ≠ "") : ∀ (L : List FactRecord), b ∈ L → ∀ o : Option Nat,
      ∃ r', L.foldl (gk k) o = some r' ∧ rank b.confidence ≤ r' := by
  intro L
  induction L with
  | nil => intro hb; simp at hb
  | cons a rest ih =>
    intro hb o
    rcases List.mem_cons.mp hb with hba | hbr
    · subst hba
      simp only [List.foldl_cons]
      have hcond : (factKey b).2 ≠ "" ∧ factKey b = k := ⟨by rw [hbk]; exact hk2, hbk⟩
      unfold gk
      rw [if_pos hcond]
      cases o with
      | none => exact foldl_gk_some_le k rest (rank b.confidence)
      | some x =>
        obtain ⟨r', h', hle⟩ := foldl_gk_some_le k rest (max x (rank b.confidence))
        exact ⟨r', h', Nat.le_trans (Nat.le_max_right _ _) hle⟩
    · simp only [List.foldl_cons]
      exact ih hbr _

theorem mergeIndex_dominates (C B : List FactRecord) (b : FactRecord) (hb : b ∈ B)
    (hk2 : (factKey b).2 ≠ "") :
    ∃ cur, lookupKey (mergeIndex C B) (factKey b) = some cur ∧
      rank b.confidence ≤ rank cur.confidence := by
  obtain ⟨r', hr', hle⟩ := foldl_gk_mem_ge (factKey b) b rfl hk2 B hb
    (rankAt (C.foldl upsert []) (factKey b))
  have hra : rankAt (mergeIndex C B) (factKey b) = some r' := by
    unfold mergeIndex
    rw [rankAt_foldl B]
    exact hr'
  unfold rankAt at hra
  cases hlk : lookupKey (mergeIndex C B) (factKey b) with
  | none => rw [hlk] at hra; simp at hra
  | some cur =>
    rw [hlk] at hra
    simp only [Option.map_some', Option.some.injEq] at hra
    exact ⟨cur, rfl, hra ▸ hle⟩

theorem foldl_upsert_proj_dominated (B : List FactRecord) :
    ∀ idx : Index,
      (∀ b ∈ B, (factKey b).2 ≠ "" →
        ∃ cur, lookupKey idx (factKey b) = some cur ∧
          rank b.confidence ≤ rank cur.confidence) →
      projIndex (B.foldl upsert idx) = projIndex idx := by
  induction B with
  | nil => intro idx _; rfl
  | cons b rest ih =>
    intro idx h
    simp only [List.foldl_cons]
    by_cases hk2 : (factKey b).2 = ""
    · rw [upsert_empty_key idx b hk2]
      exact ih idx (fun x hx => h x (List.mem_cons_of_mem b hx))
    · obtain ⟨cur, hlk, hle⟩ := h b (List.mem_cons_self b rest) hk2
      have hproj : projIndex (upsert idx b) = projIndex idx :=
        projIndex_upsert_dominated idx b cur hk2 hlk hle
      have hrest : ∀ x ∈ rest, (factKey x).2 ≠ "" →
          ∃ cur', lookupKey (upsert idx b) (factKey x) = some cur' ∧
            rank x.confidence ≤ rank cur'.confidence := by
        intro x hx hxk
        obtain ⟨cx, hcx, hcxle⟩ := h x (List.mem_cons_of_mem b hx) hxk
        have hmap := lookupKey_proj_congr hproj (factKey x)
        rw [hcx] at hmap
        cases hy : lookupKey (upsert idx b) (factKey x) with
        | none => rw [hy] at hmap; simp at hmap
        | some cy =>
          rw [hy] at hmap
          simp only [Option.map_some', Option.some.injEq] at hmap
          refine ⟨cy, rfl, ?_⟩
          rw [projFact_confidence hmap]
          exact hcxle
      rw [ih (upsert idx b) hrest, hproj]

theorem values_proj (idx : Index) :
    (idx.map (fun e => e.2)).map projFact = (projIndex idx).map (fun e => e.2) := by
  simp [projIndex, List.map_map]

/-- C5 (amended): the dedup merge is idempotent up to evidence — merging the
batch a second time leaves the merged collection unchanged in length, order,
and in every fact's type, raw value and confidence; only evidence fields can
differ (a second pass may backfill a missing evidence quote, see the
counterexample). -/
theorem dedupe_merge_idempotent_up_to_evidence (C B : List FactRecord) :
    (_dedupe_merge (_dedupe_merge C B) B).map projFact =
      (_dedupe_merge C B).map projFact := by
  have hWF : indexWF (mergeIndex C B) := mergeIndex_WF C B
  have hrefold : ((mergeIndex C B).map (fun e => e.2)).foldl upsert [] = mergeIndex C B :=
    refold_index hWF
  have hdom : ∀ b ∈ B, (factKey b).2 ≠ "" →
      ∃ cur, lookupKey (mergeIndex C B) (factKey b) = some cur ∧
        rank b.confidence ≤ rank cur.confidence :=
    fun b hb h2 => mergeIndex_dominates C B b hb h2
  have hproj : projIndex (B.foldl upsert (mergeIndex C B)) = projIndex (mergeIndex C B) :=
    foldl_upsert_proj_dominated B (mergeIndex C B) hdom
  have h1 : mergeIndex (_dedupe_merge C B) B = B.foldl upsert (mergeIndex C B) := by
    show B.foldl upsert (((mergeIndex C B).map (fun e => e.2)).foldl upsert []) =
      B.foldl upsert (mergeIndex C B)
    rw [hrefold]
  show ((mergeIndex (_dedupe_merge C B) B).map (fun e => e.2)).map projFact =
    ((mergeIndex C B).map (fun e => e.2)).map projFact
  rw [h1, values_proj, values_proj, hproj]
